import Mathlib

/-!
Shallow embedding of the fastapi-task-api service (src/main.py, src/models/models.py,
src/schemas.py, src/database/database.py) and proofs about the claims of its
specification.

Modelling conventions:
* SQLAlchemy rows become Lean structures; the database session becomes an explicit
  `DB` state (lists of rows plus the next generated primary keys) passed in and out.
* Timestamps and `timedelta` values are natural numbers of seconds.
* `HTTPException` raising becomes returning an `err` response; handler success becomes
  `ok status body`, with the status code taken from the route decorator.
* The external collaborators (passlib's hash/verify, the jose JWT library) are modelled:
  hashing is an explicit function parameter, and a JWT is a record carrying its payload,
  signing key and algorithm, with `jwtDecode` checking key, algorithm and expiry the way
  `jose.jwt.decode` does (signature mismatch, unaccepted algorithm and expiry all raise
  subclasses of `JWTError`).  A syntactically invalid bearer string is `BearerToken.malformed`.
* FastAPI serialization: a route with `response_model=TaskCreate` projects the returned
  row through the `TaskCreate` fields; a route without a response model serializes every
  loaded column of the ORM object (this is what `jsonable_encoder` does to a row).
-/

namespace TaskApi

/-- Row of the `User` table (src/models/models.py, class User). -/
structure User where
  id : Nat
  username : String
  hashed_password : String
  created_at : Nat
deriving Repr, DecidableEq

/-- Row of the `Task` table (src/models/models.py, class Task). -/
structure Task where
  id : Nat
  title : String
  description : String
  is_complete : Bool
  owner_id : Nat
  created_at : Nat
deriving Repr, DecidableEq

/-- Request schema `UserCreate` (src/schemas.py). -/
structure UserCreate where
  username : String
  password : String
deriving Repr, DecidableEq

/-- Schema `TokenData` (src/schemas.py): `username: Optional[str] = None`. -/
structure TokenData where
  username : Option String
deriving Repr, DecidableEq

/-- Request/response schema `TaskCreate` (src/schemas.py). -/
structure TaskCreate where
  title : String
  description : String
  is_complete : Bool
deriving Repr, DecidableEq

/-- The `HTTPException` raised by handlers: status code, detail, extra headers. -/
structure HTTPException where
  status_code : Nat
  detail : String
  headers : List (String × String)
deriving Repr, DecidableEq

/-- JWT payload: the `sub` claim (absent when `payload.get("sub")` is `None`)
and the `exp` claim in epoch seconds. -/
structure JWTPayload where
  sub : Option String
  exp : Nat
deriving Repr, DecidableEq

/-- A signed JWT as produced by `jose.jwt.encode`: payload plus the key and
algorithm it was signed with. -/
structure JWT where
  payload : JWTPayload
  key : String
  alg : String
deriving Repr, DecidableEq

/-- A bearer credential presented by a client: either a structurally valid JWT
or a malformed string. -/
inductive BearerToken where
  | jwt (t : JWT)
  | malformed (raw : String)
deriving Repr, DecidableEq

/-- Errors raised by `jose.jwt.decode`; all are subclasses of `JWTError` and are
caught by the handlers' `except JWTError`. -/
inductive JWTError where
  | decodeError
  | invalidSignature
  | invalidAlgorithm
  | expiredSignature
deriving Repr, DecidableEq

/-- Response schema `Token` (src/schemas.py). -/
structure Token where
  access_token : JWT
  token_type : String
deriving Repr, DecidableEq

/-- Body `{"msg": ...}` returned by `register`. -/
structure Msg where
  msg : String
deriving Repr, DecidableEq

/-- Body `{"detail": ...}` returned by `delete_task`. -/
structure Detail where
  detail : String
deriving Repr, DecidableEq

/-- A handler outcome: a success with the route's status code and body, or a
raised `HTTPException`. -/
inductive HttpResponse (α : Type) where
  | ok (status : Nat) (body : α)
  | err (e : HTTPException)
deriving Repr, DecidableEq

/-- Database state: the two tables plus the next generated primary keys. -/
structure DB where
  users : List User
  tasks : List Task
  nextUserId : Nat
  nextTaskId : Nat
deriving Repr, DecidableEq

/-- `SECRET_KEY` (src/main.py line 15). -/
def SECRET_KEY : String := "your-secret-key"

/-- `ALGORITHM` (src/main.py line 16). -/
def ALGORITHM : String := "HS256"

/-- `ACCESS_TOKEN_EXPIRE_MINUTES` (src/main.py line 17). -/
def ACCESS_TOKEN_EXPIRE_MINUTES : Nat := 30

/-- `jose.jwt.encode(claims, key, algorithm)`: sign the payload with the key. -/
def jwtEncode (payload : JWTPayload) (key : String) (algorithm : String) : JWT :=
  { payload := payload, key := key, alg := algorithm }

/-- `jose.jwt.decode(token, key, algorithms)` evaluated at time `now`:
fails on a malformed token, a signature that does not verify against `key`,
an algorithm outside `algorithms`, or an `exp` claim in the past. -/
def jwtDecode (token : BearerToken) (key : String) (algorithms : List String)
    (now : Nat) : Except JWTError JWTPayload :=
  match token with
  | .malformed _ => .error .decodeError
  | .jwt t =>
    if t.key ≠ key then .error .invalidSignature
    else if ¬ algorithms.contains t.alg then .error .invalidAlgorithm
    else if t.payload.exp < now then .error .expiredSignature
    else .ok t.payload

/-- `create_access_token(data, expires_delta)` (src/main.py lines 36-43), with the
`data` dict reduced to its `sub` entry and `now` the current time in epoch seconds.
Note the Python guard is `if expires_delta:` (truthiness), so a zero delta also
falls through to the fifteen-minute default. -/
def create_access_token (data : Option String) (expires_delta : Option Nat)
    (now : Nat) : JWT :=
  let expire :=
    match expires_delta with
    | some d => if d ≠ 0 then now + d else now + 15 * 60
    | none => now + 15 * 60
  jwtEncode { sub := data, exp := expire } SECRET_KEY ALGORITHM

/-- `get_user(db, username)` (src/main.py lines 46-48): first row of
`select(User).filter(User.username == username)`. -/
def get_user (db : DB) (username : String) : Option User :=
  db.users.find? (fun u => u.username == username)

/-- `authenticate_user(db, username, password)` (src/main.py lines 50-54);
`verify` is passlib's `pwd_context.verify`. Returning `False` in Python is
modelled as `none`. -/
def authenticate_user (db : DB) (verify : String → String → Bool)
    (username password : String) : Option User :=
  match get_user db username with
  | none => none
  | some user => if verify password user.hashed_password then some user else none

/-- The `credentials_exception` built by both definitions of `get_current_user`. -/
def credentials_exception : HTTPException :=
  { status_code := 401, detail := "Could not validate credentials",
    headers := [("WWW-Authenticate", "Bearer")] }

/-- First definition of `get_current_user` (src/main.py lines 56-73): decode the
token, read the `sub` claim, wrap it in `TokenData`, look the user up with
`get_user`. A `None` username reaching `get_user` would match no row (SQL `NULL`
equality), so that branch also ends in the credentials exception. -/
def get_current_user (db : DB) (token : BearerToken) (now : Nat) :
    Except HTTPException User :=
  match jwtDecode token SECRET_KEY [ALGORITHM] now with
  | .error _ => .error credentials_exception
  | .ok payload =>
    match payload.sub with
    | none => .error credentials_exception
    | some username =>
      let token_data : TokenData := { username := some username }
      match token_data.username with
      | none => .error credentials_exception
      | some name =>
        match get_user db name with
        | none => .error credentials_exception
        | some user => .ok user

/-- Second definition of `get_current_user` (src/main.py lines 110-135): decode the
token, read the `sub` claim, query the user table directly. In Python this second
`def` rebinds the name; both definitions stay reachable because `Depends` captured
the first one before line 110. -/
def get_current_user2 (db : DB) (token : BearerToken) (now : Nat) :
    Except HTTPException User :=
  match jwtDecode token SECRET_KEY [ALGORITHM] now with
  | .error _ => .error credentials_exception
  | .ok payload =>
    match payload.sub with
    | none => .error credentials_exception
    | some username =>
      match db.users.find? (fun u => u.username == username) with
      | none => .error credentials_exception
      | some user => .ok user

/-- A request to an auth-required endpoint: FastAPI resolves the
`Depends(get_current_user)` parameter first and only then runs the handler body. -/
def withAuth {α : Type} (db : DB) (token : BearerToken) (now : Nat)
    (endpoint : User → α) : Except HTTPException α :=
  (get_current_user2 db token now).map endpoint

/-- `register` (src/main.py lines 76-89); `hash` is passlib's `pwd_context.hash`
and `now` the insert timestamp filling the `created_at` column default. The route
decorator carries no `status_code`, so success is HTTP 200 with the `{msg}` body. -/
def register (db : DB) (hash : String → String) (now : Nat) (user : UserCreate) :
    HttpResponse Msg × DB :=
  match get_user db user.username with
  | some _ =>
    (.err { status_code := 400, detail := "Username already registered", headers := [] }, db)
  | none =>
    let hashed_password := hash user.password
    let new_user : User :=
      { id := db.nextUserId, username := user.username,
        hashed_password := hashed_password, created_at := now }
    (.ok 200 { msg := "User registered successfully" },
     { db with users := db.users ++ [new_user], nextUserId := db.nextUserId + 1 })

/-- `login_for_access_token` (src/main.py lines 91-104). -/
def login_for_access_token (db : DB) (verify : String → String → Bool)
    (username password : String) (now : Nat) : HttpResponse Token :=
  match authenticate_user db verify username password with
  | none =>
    .err { status_code := 401, detail := "Incorrect username or password",
           headers := [("WWW-Authenticate", "Bearer")] }
  | some user =>
    let access_token_expires := ACCESS_TOKEN_EXPIRE_MINUTES * 60
    .ok 200 { access_token := create_access_token (some user.username)
                (some access_token_expires) now,
              token_type := "bearer" }

/-- `read_users_me` (src/main.py lines 106-108): the handler body returns the
resolved current user unchanged. -/
def read_users_me (current_user : User) : User := current_user

/-- `HTTPException` raised by the task endpoints when the task is absent or not
owned by the caller. -/
def taskNotFound : HTTPException :=
  { status_code := 404, detail := "Task not found", headers := [] }

/-- `db.get(Task, task_id)`: primary-key lookup in the `Task` table. -/
def dbGetTask (db : DB) (task_id : Nat) : Option Task :=
  db.tasks.find? (fun t => t.id == task_id)

/-- `create_task` (src/main.py lines 138-153); `now` fills the `created_at`
column default. The route declares `status_code=201`. -/
def create_task (db : DB) (current_user : User) (task : TaskCreate) (now : Nat) :
    HttpResponse Task × DB :=
  let new_task : Task :=
    { id := db.nextTaskId, title := task.title, description := task.description,
      is_complete := task.is_complete, owner_id := current_user.id, created_at := now }
  (.ok 201 new_task,
   { db with tasks := db.tasks ++ [new_task], nextTaskId := db.nextTaskId + 1 })

/-- `get_tasks` handler body (src/main.py lines 155-162):
`select(Task).filter(Task.owner_id == current_user.id)`. -/
def get_tasks (db : DB) (current_user : User) : List Task :=
  db.tasks.filter (fun t => t.owner_id == current_user.id)

/-- `get_task` (src/main.py lines 164-173, the first declaration): fetch by id,
then check ownership; absent and not-owned both raise the same 404. -/
def get_task (db : DB) (current_user : User) (task_id : Nat) : HttpResponse Task :=
  match dbGetTask db task_id with
  | none => .err taskNotFound
  | some task =>
    if task.owner_id ≠ current_user.id then .err taskNotFound
    else .ok 200 task

/-- The second, textually identical declaration of the `GET /tasks/{task_id}`
handler (src/main.py lines 175-184). -/
def get_task_dup (db : DB) (current_user : User) (task_id : Nat) : HttpResponse Task :=
  match dbGetTask db task_id with
  | none => .err taskNotFound
  | some task =>
    if task.owner_id ≠ current_user.id then .err taskNotFound
    else .ok 200 task

/-- The three assignments of `update_task` (src/main.py lines 197-199): overwrite
`title`, `description` and `is_complete` of a row with the request-body values. -/
def applyTaskCreate (task : TaskCreate) (db_task : Task) : Task :=
  { db_task with title := task.title, description := task.description,
                 is_complete := task.is_complete }

/-- `update_task` (src/main.py lines 186-202): fetch by id, check ownership,
then overwrite `title`, `description` and `is_complete` of that row and commit. -/
def update_task (db : DB) (current_user : User) (task_id : Nat) (task : TaskCreate) :
    HttpResponse Task × DB :=
  match dbGetTask db task_id with
  | none => (.err taskNotFound, db)
  | some db_task =>
    if db_task.owner_id ≠ current_user.id then (.err taskNotFound, db)
    else
      let updated : Task := applyTaskCreate task db_task
      (.ok 200 updated,
       { db with tasks := db.tasks.map (fun t => if t.id == task_id then updated else t) })

/-- `delete_task` (src/main.py lines 204-216): fetch by id, check ownership, then
delete the row (the id is the primary key) and commit. The route declares
`status_code=204`. -/
def delete_task (db : DB) (current_user : User) (task_id : Nat) :
    HttpResponse Detail × DB :=
  match dbGetTask db task_id with
  | none => (.err taskNotFound, db)
  | some task =>
    if task.owner_id ≠ current_user.id then (.err taskNotFound, db)
    else
      (.ok 204 { detail := "Task deleted" },
       { db with tasks := db.tasks.filter (fun t => t.id != task_id) })

/-- A JSON value, for stating which fields a serialized response body carries. -/
inductive Json where
  | str (s : String)
  | num (n : Nat)
  | jbool (b : Bool)
  | obj (fields : List (String × Json))
  | arr (elems : List Json)

/-- Field names of a JSON object (empty for non-objects). -/
def jsonFields : Json → List String
  | .obj fields => fields.map Prod.fst
  | _ => []

/-- Elements of a JSON array (empty for non-arrays). -/
def jsonElems : Json → List Json
  | .arr elems => elems
  | _ => []

/-- Whether a JSON object carries a field of the given name. -/
def jsonHasField (j : Json) (k : String) : Bool :=
  (jsonFields j).contains k

/-- Serialization of a `User` row by a route with no `response_model`
(`jsonable_encoder` emits every loaded column of the ORM object). -/
def serializeUser (u : User) : Json :=
  .obj [("id", .num u.id), ("username", .str u.username),
        ("hashed_password", .str u.hashed_password), ("created_at", .num u.created_at)]

/-- Serialization of a `Task` row by a route with no `response_model`
(every loaded column, as `create_task` does). -/
def serializeTaskFull (t : Task) : Json :=
  .obj [("id", .num t.id), ("title", .str t.title), ("description", .str t.description),
        ("is_complete", .jbool t.is_complete), ("owner_id", .num t.owner_id),
        ("created_at", .num t.created_at)]

/-- Serialization of a `Task` row through `response_model=TaskCreate`: only the
`TaskCreate` fields survive, in their declaration order. -/
def serializeTaskCreate (t : Task) : Json :=
  .obj [("title", .str t.title), ("description", .str t.description),
        ("is_complete", .jbool t.is_complete)]

/-- Map over the body of a successful response. -/
def HttpResponse.map {α β : Type} (f : α → β) : HttpResponse α → HttpResponse β
  | .ok s b => .ok s (f b)
  | .err e => .err e

/-- The full `GET /users/me/` route: resolve the current user (via the first
`get_current_user`, the one `Depends` captured at line 107), then serialize the
handler's return value with no `response_model`. -/
def read_users_me_route (db : DB) (token : BearerToken) (now : Nat) :
    Except HTTPException Json :=
  (get_current_user db token now).map (fun u => serializeUser (read_users_me u))

/-- The `POST /tasks/` route body: no `response_model`, so the new row is
serialized in full. -/
def create_task_route (db : DB) (current_user : User) (task : TaskCreate) (now : Nat) :
    HttpResponse Json × DB :=
  let r := create_task db current_user task now
  (r.1.map serializeTaskFull, r.2)

/-- The `GET /tasks/` route body: `response_model=List[TaskCreate]`. -/
def get_tasks_route (db : DB) (current_user : User) : Json :=
  .arr ((get_tasks db current_user).map serializeTaskCreate)

/-- The `GET /tasks/{task_id}` route body: `response_model=TaskCreate`. -/
def get_task_route (db : DB) (current_user : User) (task_id : Nat) : HttpResponse Json :=
  (get_task db current_user task_id).map serializeTaskCreate

/-- The `PUT /tasks/{task_id}` route body: `response_model=TaskCreate`. -/
def update_task_route (db : DB) (current_user : User) (task_id : Nat)
    (task : TaskCreate) : HttpResponse Json × DB :=
  let r := update_task db current_user task_id task
  (r.1.map serializeTaskCreate, r.2)

/-! Concrete fixtures used by witnesses and counterexamples. -/

/-- A concrete stored user. -/
def alice : User :=
  { id := 1, username := "alice", hashed_password := "digest-of-pw1", created_at := 0 }

/-- A second concrete stored user. -/
def bob : User :=
  { id := 2, username := "bob", hashed_password := "digest-of-pw2", created_at := 0 }

/-- A concrete task owned by `alice`. -/
def task1 : Task :=
  { id := 1, title := "t", description := "d", is_complete := false,
    owner_id := 1, created_at := 0 }

/-- A concrete database state with two users and one task. -/
def db0 : DB := { users := [alice, bob], tasks := [task1], nextUserId := 3, nextTaskId := 2 }

/-- An empty database state. -/
def dbEmpty : DB := { users := [], tasks := [], nextUserId := 1, nextTaskId := 1 }

/-- A concrete request body for task updates. -/
def body0 : TaskCreate := { title := "t2", description := "d2", is_complete := true }

/-- A concrete valid bearer token for `alice`, issued at time 0 with a
30-minute expiry. -/
def aliceToken : BearerToken := .jwt (create_access_token (some "alice") (some 1800) 0)

/-- A concrete hash function standing in for `pwd_context.hash` in witnesses. -/
def hash0 : String → String := fun s => String.append "digest-of-" s

/-! Claim theorems. -/

/-- C10: the two definitions of `get_current_user` (the first via `TokenData` and
`get_user`, the second decoding and querying directly) are extensionally equal on
every token, time and database state, and the two identical declarations of the
`GET /tasks/{task_id}` handler are behaviorally equal: there is a single behavior,
not two competing code paths. -/
theorem c10_duplicate_definitions_agree (db : DB) (token : BearerToken) (now : Nat)
    (cu : User) (tid : Nat) :
    get_current_user db token now = get_current_user2 db token now
    ∧ get_task db cu tid = get_task_dup db cu tid :=
  ⟨rfl, rfl⟩

/-- C5 counterexample: a token issued with no explicit `expires_delta` at time 0
carries `exp = 900` seconds (15 minutes), not `ACCESS_TOKEN_EXPIRE_MINUTES * 60 =
1800` seconds (30 minutes), refuting the claim that the issuer's default TTL is
30 minutes. -/
theorem c5_default_ttl_counterexample :
    (create_access_token (some "alice") none 0).payload.exp = 15 * 60
    ∧ ¬ (create_access_token (some "alice") none 0).payload.exp
        = ACCESS_TOKEN_EXPIRE_MINUTES * 60 := by
  constructor
  · rfl
  · decide

/-- C5 amended: the expiry applied when no explicit `expires_delta` is supplied to
`create_access_token` is 15 minutes past issuance; the 30-minute
`ACCESS_TOKEN_EXPIRE_MINUTES` constant is only applied where a caller passes it
explicitly (as the login endpoint does). -/
theorem c5_default_ttl_amended (data : Option String) (now : Nat) :
    (create_access_token data none now).payload.exp = now + 15 * 60
    ∧ ACCESS_TOKEN_EXPIRE_MINUTES = 30 :=
  ⟨rfl, rfl⟩

/-- C1: contrary to the claim that `hashed_password` is never exposed, the
`GET /users/me/` route serializes the raw `User` row (the handler returns it with
no `response_model`), so the response body for an authenticated request carries
the `hashed_password` digest. -/
theorem c1_users_me_exposes_digest :
    read_users_me_route db0 aliceToken 60 = .ok (serializeUser alice)
    ∧ jsonHasField (serializeUser alice) "hashed_password" = true :=
  ⟨rfl, rfl⟩

/-- C6: round-trip: decoding a token issued with subject `s` and ttl `ttl` at any
time `t` before the ttl elapses, with the same signing key and algorithm, succeeds
and yields a payload whose `sub` claim is exactly `s`. -/
theorem c6_token_roundtrip (s : String) (ttl now t : Nat) (h : t < now + ttl) :
    ∃ p, jwtDecode (.jwt (create_access_token (some s) (some ttl) now))
          SECRET_KEY [ALGORITHM] t = .ok p ∧ p.sub = some s := by
  refine ⟨(create_access_token (some s) (some ttl) now).payload, ?_, rfl⟩
  have hexp : ¬ (create_access_token (some s) (some ttl) now).payload.exp < t := by
    unfold create_access_token jwtEncode
    by_cases h0 : ttl = 0
    · subst h0
      simp
      omega
    · simp [h0]
      omega
  have hkey : (create_access_token (some s) (some ttl) now).key = SECRET_KEY := rfl
  have halg : (create_access_token (some s) (some ttl) now).alg = ALGORITHM := rfl
  unfold jwtDecode
  simp [hexp, hkey, halg]

/-- Witness for C6 at a concrete subject, ttl and decode time. -/
theorem c6_token_roundtrip_witness :
    100 < 0 + 1800
    ∧ ∃ p, jwtDecode (.jwt (create_access_token (some "alice") (some 1800) 0))
            SECRET_KEY [ALGORITHM] 100 = .ok p ∧ p.sub = some "alice" :=
  ⟨by decide, c6_token_roundtrip "alice" 1800 0 100 (by decide)⟩

/-- C3: for a request to an auth-required endpoint, every token-validation failure
(malformed token, bad signature, bad algorithm, expiry — all the `JWTError` cases),
an absent `sub` claim, and a subject that resolves to no stored user each yield the
401 credentials exception, and the endpoint body never runs in those cases; when
validation and resolution succeed, the resolved user is passed to the endpoint as
`current_user`. -/
theorem c3_auth_gate (db : DB) (token : BearerToken) (now : Nat) :
    credentials_exception.status_code = 401
    ∧ (∀ e, jwtDecode token SECRET_KEY [ALGORITHM] now = .error e →
        get_current_user2 db token now = .error credentials_exception)
    ∧ (∀ p, jwtDecode token SECRET_KEY [ALGORITHM] now = .ok p → p.sub = none →
        get_current_user2 db token now = .error credentials_exception)
    ∧ (∀ p name, jwtDecode token SECRET_KEY [ALGORITHM] now = .ok p →
        p.sub = some name → get_user db name = none →
        get_current_user2 db token now = .error credentials_exception)
    ∧ (∀ p name user, jwtDecode token SECRET_KEY [ALGORITHM] now = .ok p →
        p.sub = some name → get_user db name = some user →
        get_current_user2 db token now = .ok user)
    ∧ (∀ (α : Type) (endpoint : User → α) (e : HTTPException),
        get_current_user2 db token now = .error e →
        withAuth db token now endpoint = .error e)
    ∧ (∀ (α : Type) (endpoint : User → α) (user : User),
        get_current_user2 db token now = .ok user →
        withAuth db token now endpoint = .ok (endpoint user)) := by
  refine ⟨rfl, ?_, ?_, ?_, ?_, ?_, ?_⟩
  · intro e he
    simp [get_current_user2, he]
  · intro p hp hs
    simp [get_current_user2, hp, hs]
  · intro p name hp hs hu
    have hu2 : db.users.find? (fun x => x.username == name) = none := hu
    simp [get_current_user2, hp, hs, hu2]
  · intro p name user hp hs hu
    have hu2 : db.users.find? (fun x => x.username == name) = some user := hu
    simp [get_current_user2, hp, hs, hu2]
  · intro α endpoint e he
    simp [withAuth, he, Except.map]
  · intro α endpoint user hu
    simp [withAuth, hu, Except.map]

/-- Witness for C3: a malformed token is rejected with the 401 credentials
exception, and a valid token for `alice` resolves to `alice` and hands her to the
endpoint body. -/
theorem c3_auth_gate_witness :
    get_current_user2 db0 (.malformed "garbage") 60 = .error credentials_exception
    ∧ get_current_user2 db0 aliceToken 60 = .ok alice
    ∧ withAuth db0 aliceToken 60 (fun u => u.id) = .ok 1 :=
  ⟨(c3_auth_gate db0 (.malformed "garbage") 60).2.1 .decodeError rfl,
   (c3_auth_gate db0 aliceToken 60).2.2.2.2.1
     { sub := some "alice", exp := 1800 } "alice" alice rfl rfl rfl,
   (c3_auth_gate db0 aliceToken 60).2.2.2.2.2.2 Nat (fun u => u.id) alice
     ((c3_auth_gate db0 aliceToken 60).2.2.2.2.1
       { sub := some "alice", exp := 1800 } "alice" alice rfl rfl rfl)⟩

/-- C2: for every authenticated caller and task id, each of the `GET`, `PUT` and
`DELETE` `/tasks/{task_id}` handlers fetches the task by id and checks
`task.owner_id == current_user.id`; when the task is absent or owned by someone
else, each fails with the same 404 `taskNotFound` exception (identical response in
both cases), and the mutating handlers leave the database untouched. -/
theorem c2_ownership_checks (db : DB) (cu : User) (tid : Nat) (body : TaskCreate)
    (h : dbGetTask db tid = none ∨ ∃ t, dbGetTask db tid = some t ∧ t.owner_id ≠ cu.id) :
    taskNotFound.status_code = 404
    ∧ get_task db cu tid = .err taskNotFound
    ∧ update_task db cu tid body = (.err taskNotFound, db)
    ∧ delete_task db cu tid = (.err taskNotFound, db) := by
  rcases h with h | ⟨t, ht, hown⟩
  · exact ⟨rfl, by simp [get_task, h], by simp [update_task, h], by simp [delete_task, h]⟩
  · exact ⟨rfl, by simp [get_task, ht, hown], by simp [update_task, ht, hown],
      by simp [delete_task, ht, hown]⟩

/-- Witness for C2: caller `bob` asking for `task1`, which exists but is owned by
`alice`, receives the 404 from all three handlers with no state change. -/
theorem c2_ownership_checks_witness :
    (dbGetTask db0 1 = none ∨ ∃ t, dbGetTask db0 1 = some t ∧ t.owner_id ≠ bob.id)
    ∧ (taskNotFound.status_code = 404
       ∧ get_task db0 bob 1 = .err taskNotFound
       ∧ update_task db0 bob 1 body0 = (.err taskNotFound, db0)
       ∧ delete_task db0 bob 1 = (.err taskNotFound, db0)) :=
  ⟨Or.inr ⟨task1, rfl, by decide⟩,
   c2_ownership_checks db0 bob 1 body0 (Or.inr ⟨task1, rfl, by decide⟩)⟩

/-- C4: registering a fresh username stores a user whose digest is `hash(password)`
and answers the `{msg}` success body (HTTP 200, the spec's 201-equivalent); a
second registration of the same username fails with 400 "Username already
registered" and leaves the database — in particular the first user's record —
unchanged. -/
theorem c4_register_unique (db : DB) (hash : String → String) (now now2 : Nat)
    (u : UserCreate) (h : get_user db u.username = none) :
    (register db hash now u).1 = .ok 200 { msg := "User registered successfully" }
    ∧ get_user (register db hash now u).2 u.username =
        some { id := db.nextUserId, username := u.username,
               hashed_password := hash u.password, created_at := now }
    ∧ register (register db hash now u).2 hash now2 u =
        (.err { status_code := 400, detail := "Username already registered", headers := [] },
         (register db hash now u).2) := by
  have hf : db.users.find? (fun x => x.username == u.username) = none := h
  have h2 : get_user (register db hash now u).2 u.username =
      some { id := db.nextUserId, username := u.username,
             hashed_password := hash u.password, created_at := now } := by
    simp [register, get_user, hf, List.find?_append]
  refine ⟨?_, h2, ?_⟩
  · simp [register, get_user, hf]
  · generalize hdb2 : (register db hash now u).2 = db2 at h2 ⊢
    simp [register, h2]

/-- Witness for C4 at a concrete fresh username against the empty database. -/
theorem c4_register_unique_witness :
    get_user dbEmpty "carol" = none
    ∧ ((register dbEmpty hash0 5 { username := "carol", password := "pw" }).1 =
        .ok 200 { msg := "User registered successfully" }
       ∧ get_user (register dbEmpty hash0 5 { username := "carol", password := "pw" }).2
           "carol" =
          some { id := dbEmpty.nextUserId, username := "carol",
                 hashed_password := hash0 "pw", created_at := 5 }
       ∧ register (register dbEmpty hash0 5 { username := "carol", password := "pw" }).2
           hash0 6 { username := "carol", password := "pw" } =
          (.err { status_code := 400, detail := "Username already registered",
                  headers := [] },
           (register dbEmpty hash0 5 { username := "carol", password := "pw" }).2)) :=
  ⟨rfl, c4_register_unique dbEmpty hash0 5 6 { username := "carol", password := "pw" } rfl⟩

/-- Replacing the row with primary key `k` in a table in which `find?` locates a
row with that key makes `find?` return the replacement, provided the replacement
keeps key `k`. -/
theorem find_replace_by_id (l : List Task) (k : Nat) (v t : Task)
    (hfind : l.find? (fun x => x.id == k) = some t) (hv : v.id = k) :
    (l.map (fun x => if x.id == k then v else x)).find? (fun x => x.id == k) = some v := by
  induction l with
  | nil => simp at hfind
  | cons a l ih =>
    rw [List.map_cons]
    by_cases ha : a.id = k
    · have hhead : (if a.id == k then v else a) = v := by simp [ha]
      rw [hhead, List.find?_cons_of_pos _ (by simp [hv])]
    · have hhead : (if a.id == k then v else a) = a := by simp [ha]
      rw [List.find?_cons_of_neg _ (by simp [ha])] at hfind
      rw [hhead, List.find?_cons_of_neg _ (by simp [ha])]
      exact ih hfind

/-- After filtering out the rows with primary key `k`, `find?` on key `k`
finds nothing. -/
theorem find_none_after_filter_ne (l : List Task) (k : Nat) :
    (l.filter (fun x => x.id != k)).find? (fun x => x.id == k) = none := by
  rw [List.find?_eq_none]
  intro x hx
  have hmem := List.mem_filter.mp hx
  simp at hmem ⊢
  exact hmem.2

/-- C7: updating a task the caller owns replaces exactly its `title`,
`description` and `is_complete` with the request-body values while keeping its
`id`, `owner_id` and `created_at`; the user table, the id counters, the number of
tasks, and every task with a different id are unchanged. -/
theorem c7_update_frame (db : DB) (cu : User) (tid : Nat) (body : TaskCreate) (t : Task)
    (hfind : dbGetTask db tid = some t) (hown : t.owner_id = cu.id) :
    (update_task db cu tid body).1 = .ok 200 (applyTaskCreate body t)
    ∧ (applyTaskCreate body t).title = body.title
    ∧ (applyTaskCreate body t).description = body.description
    ∧ (applyTaskCreate body t).is_complete = body.is_complete
    ∧ (applyTaskCreate body t).id = t.id
    ∧ (applyTaskCreate body t).owner_id = t.owner_id
    ∧ (applyTaskCreate body t).created_at = t.created_at
    ∧ (update_task db cu tid body).2.users = db.users
    ∧ (update_task db cu tid body).2.nextTaskId = db.nextTaskId
    ∧ (update_task db cu tid body).2.nextUserId = db.nextUserId
    ∧ dbGetTask (update_task db cu tid body).2 tid = some (applyTaskCreate body t)
    ∧ (update_task db cu tid body).2.tasks.length = db.tasks.length
    ∧ (∀ (j : Nat) (u : Task), db.tasks[j]? = some u → u.id ≠ tid →
        (update_task db cu tid body).2.tasks[j]? = some u) := by
  have hid : t.id = tid := by
    have := List.find?_some hfind
    simpa using this
  have hfind2 : db.tasks.find? (fun x => x.id == tid) = some t := hfind
  have h1 : (update_task db cu tid body).1 = .ok 200 (applyTaskCreate body t) := by
    simp [update_task, hfind, hown]
  have h2 : (update_task db cu tid body).2 =
      { db with tasks :=
          db.tasks.map (fun x => if x.id == tid then applyTaskCreate body t else x) } := by
    simp [update_task, hfind, hown]
  refine ⟨h1, rfl, rfl, rfl, rfl, rfl, rfl, ?_, ?_, ?_, ?_, ?_, ?_⟩
  · rw [h2]
  · rw [h2]
  · rw [h2]
  · rw [h2]
    exact find_replace_by_id db.tasks tid (applyTaskCreate body t) t hfind2 hid
  · rw [h2]
    simp
  · intro j u hj hne
    rw [h2]
    simp only [List.getElem?_map, hj, Option.map_some]
    simp [hne]

/-- Witness for C7 at a concrete owned task. -/
theorem c7_update_frame_witness :
    dbGetTask db0 1 = some task1 ∧ task1.owner_id = alice.id
    ∧ ((update_task db0 alice 1 body0).1 = .ok 200 (applyTaskCreate body0 task1)
       ∧ (applyTaskCreate body0 task1).title = body0.title
       ∧ (applyTaskCreate body0 task1).description = body0.description
       ∧ (applyTaskCreate body0 task1).is_complete = body0.is_complete
       ∧ (applyTaskCreate body0 task1).id = task1.id
       ∧ (applyTaskCreate body0 task1).owner_id = task1.owner_id
       ∧ (applyTaskCreate body0 task1).created_at = task1.created_at
       ∧ (update_task db0 alice 1 body0).2.users = db0.users
       ∧ (update_task db0 alice 1 body0).2.nextTaskId = db0.nextTaskId
       ∧ (update_task db0 alice 1 body0).2.nextUserId = db0.nextUserId
       ∧ dbGetTask (update_task db0 alice 1 body0).2 1 = some (applyTaskCreate body0 task1)
       ∧ (update_task db0 alice 1 body0).2.tasks.length = db0.tasks.length
       ∧ (∀ (j : Nat) (u : Task), db0.tasks[j]? = some u → u.id ≠ 1 →
          (update_task db0 alice 1 body0).2.tasks[j]? = some u)) :=
  ⟨rfl, rfl, c7_update_frame db0 alice 1 body0 task1 rfl rfl⟩

/-- C8: the first `DELETE` of a task the caller owns answers 204 and removes
exactly that task (every other task survives, the user table is untouched); a
second `DELETE` of the same id answers the 404 `taskNotFound` and leaves the
database state unchanged. -/
theorem c8_delete_idempotent (db : DB) (cu : User) (tid : Nat) (t : Task)
    (hfind : dbGetTask db tid = some t) (hown : t.owner_id = cu.id) :
    (delete_task db cu tid).1 = .ok 204 { detail := "Task deleted" }
    ∧ dbGetTask (delete_task db cu tid).2 tid = none
    ∧ (delete_task db cu tid).2.users = db.users
    ∧ (∀ u ∈ db.tasks, u.id ≠ tid → u ∈ (delete_task db cu tid).2.tasks)
    ∧ (∀ u ∈ (delete_task db cu tid).2.tasks, u ∈ db.tasks ∧ u.id ≠ tid)
    ∧ delete_task (delete_task db cu tid).2 cu tid =
        (.err taskNotFound, (delete_task db cu tid).2) := by
  have hfind2 : db.tasks.find? (fun x => x.id == tid) = some t := hfind
  have hdel : (delete_task db cu tid).2 =
      { db with tasks := db.tasks.filter (fun x => x.id != tid) } := by
    simp [delete_task, hfind, hown]
  have hnone : dbGetTask (delete_task db cu tid).2 tid = none := by
    rw [hdel]
    exact find_none_after_filter_ne db.tasks tid
  refine ⟨?_, hnone, ?_, ?_, ?_, ?_⟩
  · simp [delete_task, hfind, hown]
  · rw [hdel]
  · intro u hu hne
    rw [hdel]
    simp [List.mem_filter, hu, hne]
  · intro u hu
    rw [hdel] at hu
    simp [List.mem_filter] at hu
    exact hu
  · have hn2 : dbGetTask { db with tasks := db.tasks.filter (fun x => x.id != tid) } tid
        = none := find_none_after_filter_ne db.tasks tid
    rw [hdel]
    simp [delete_task, hn2]

/-- Witness for C8 at a concrete owned task. -/
theorem c8_delete_idempotent_witness :
    dbGetTask db0 1 = some task1 ∧ task1.owner_id = alice.id
    ∧ ((delete_task db0 alice 1).1 = .ok 204 { detail := "Task deleted" }
       ∧ dbGetTask (delete_task db0 alice 1).2 1 = none
       ∧ (delete_task db0 alice 1).2.users = db0.users
       ∧ (∀ u ∈ db0.tasks, u.id ≠ 1 → u ∈ (delete_task db0 alice 1).2.tasks)
       ∧ (∀ u ∈ (delete_task db0 alice 1).2.tasks, u ∈ db0.tasks ∧ u.id ≠ 1)
       ∧ delete_task (delete_task db0 alice 1).2 alice 1 =
          (.err taskNotFound, (delete_task db0 alice 1).2)) :=
  ⟨rfl, rfl, c8_delete_idempotent db0 alice 1 task1 rfl rfl⟩

/-- C9: the routes with `response_model=TaskCreate` — `GET /tasks/`,
`GET /tasks/{task_id}` and `PUT /tasks/{task_id}` — serialize every returned task
to exactly the fields `title`, `description` and `is_complete`, never exposing
`id`, `owner_id` or `created_at`; only `POST /tasks/` (no response model) returns
the full task record. -/
theorem c9_task_response_model (db : DB) (cu : User) (tid : Nat) (body : TaskCreate)
    (now : Nat) :
    (∀ j ∈ jsonElems (get_tasks_route db cu),
        jsonFields j = ["title", "description", "is_complete"])
    ∧ (∀ s j, get_task_route db cu tid = .ok s j →
        jsonFields j = ["title", "description", "is_complete"]
        ∧ jsonHasField j "id" = false
        ∧ jsonHasField j "owner_id" = false
        ∧ jsonHasField j "created_at" = false)
    ∧ (∀ s j, (update_task_route db cu tid body).1 = .ok s j →
        jsonFields j = ["title", "description", "is_complete"])
    ∧ (∀ s j, (create_task_route db cu body now).1 = .ok s j →
        jsonFields j =
          ["id", "title", "description", "is_complete", "owner_id", "created_at"]) := by
  refine ⟨?_, ?_, ?_, ?_⟩
  · intro j hj
    simp [get_tasks_route, jsonElems, List.mem_map] at hj
    obtain ⟨t, _, rfl⟩ := hj
    rfl
  · intro s j hj
    cases hgt : get_task db cu tid with
    | err e => simp [get_task_route, hgt, HttpResponse.map] at hj
    | ok s2 t =>
      simp [get_task_route, hgt, HttpResponse.map] at hj
      rw [← hj.2]
      exact ⟨rfl, rfl, rfl, rfl⟩
  · intro s j hj
    cases hgt : (update_task db cu tid body).1 with
    | err e => simp [update_task_route, hgt, HttpResponse.map] at hj
    | ok s2 t =>
      simp [update_task_route, hgt, HttpResponse.map] at hj
      rw [← hj.2]
      rfl
  · intro s j hj
    cases hgt : (create_task db cu body now).1 with
    | err e => simp [create_task_route, hgt, HttpResponse.map] at hj
    | ok s2 t =>
      simp [create_task_route, hgt, HttpResponse.map] at hj
      rw [← hj.2]
      rfl

/-- Witness for C9: on a concrete database, `GET /tasks/1` serves exactly the
three `TaskCreate` fields, while `POST /tasks/` serves the full record. -/
theorem c9_task_response_model_witness :
    get_task_route db0 alice 1 = .ok 200 (serializeTaskCreate task1)
    ∧ jsonFields (serializeTaskCreate task1) = ["title", "description", "is_complete"]
    ∧ jsonHasField (serializeTaskCreate task1) "owner_id" = false
    ∧ jsonFields (serializeTaskFull
        { id := 2, title := "t2", description := "d2", is_complete := true,
          owner_id := 1, created_at := 7 }) =
        ["id", "title", "description", "is_complete", "owner_id", "created_at"] :=
  ⟨rfl,
   ((c9_task_response_model db0 alice 1 body0 7).2.1 200 (serializeTaskCreate task1) rfl).1,
   ((c9_task_response_model db0 alice 1 body0 7).2.1 200 (serializeTaskCreate task1) rfl).2.2.1,
   (c9_task_response_model db0 alice 1 body0 7).2.2.2 201
     (serializeTaskFull
       { id := 2, title := "t2", description := "d2", is_complete := true,
         owner_id := 1, created_at := 7 }) rfl⟩

end TaskApi
